import Mathlib

/-!
# pdpython: a Pd external bridging Pd messages and Python objects

A shallow embedding of `pdpython.c` and theorems about its message bridge.

Modelling conventions.

* `t_float` is the single-precision type of a standard Pd build and Python
  floats are C doubles.  Both are modelled by their IEEE-754 value: sign,
  biased exponent field and fraction field, with one NaN (no payload).
  Conversions between them follow the C casts in the source: widening is
  exact, narrowing rounds to nearest with ties to even.
* `int` is 32 bits wide and `long` is 64 bits wide; the casts `(int) len` of the
  source wrap modulo `2^32`.
* Pd symbols and Python strings are `String`s; a C string built from a Python
  string stops at its first NUL character.
* The Pd console is the list of `post` calls made so far (format string and
  arguments), an outlet is a handle, and the messages sent through outlets are
  kept in one list in sending order.
* Python code run by the interpreter (module bodies, factories, methods) is
  given by its results; every interpreter entry point the bridge uses is
  recorded in `World.pycalls`.  Reference counts are not modelled.
* `World.py_err` is the interpreter's error indicator.  An interpreter call
  that fails leaves an exception pending, and the source never clears it.
  While an exception is pending, a call of a Python callable returns `NULL`
  (the interpreter refuses a result returned with an exception set), and so
  does a module load, which is such a call; attribute lookups and value
  conversions do not depend on the indicator.
-/

namespace PdPython

/-! ## Floating point values -/

/-- Single-precision value (`float`, Pd `t_float`): biased exponent field
`expo` in `0..254` and 23-bit fraction field. -/
inductive F32 where
  | nan
  | inf (neg : Bool)
  | fin (neg : Bool) (expo : Fin 255) (frac : Fin 8388608)
  deriving DecidableEq, Repr

/-- Double-precision value (`double`, Python `float`): biased exponent field
`expo` in `0..2046` and 52-bit fraction field. -/
inductive F64 where
  | nan
  | inf (neg : Bool)
  | fin (neg : Bool) (expo : Fin 2047) (frac : Fin 4503599627370496)
  deriving DecidableEq, Repr

/-- Number of binary digits of `n` (0 for 0), for `n < 2 ^ fuel`. -/
def bitLength : Nat → Nat → Nat
  | 0, _ => 0
  | fuel + 1, n => if n = 0 then 0 else bitLength fuel (n / 2) + 1

/-- The single-precision value with integer significand `m ≤ 2^24` whose last
place has weight `2 ^ (y - 1074)`; `y = 925` is the subnormal exponent. -/
def F32.encode (neg : Bool) (m y : Nat) : F32 :=
  if h : m < 8388608 then F32.fin neg 0 ⟨m, h⟩
  else
    let y1 := if m = 16777216 then y + 1 else y
    let m1 := if m = 16777216 then 8388608 else m
    if h1 : y1 - 924 < 255 then
      F32.fin neg ⟨y1 - 924, h1⟩ ⟨(m1 - 8388608) % 8388608, Nat.mod_lt _ (by decide)⟩
    else F32.inf neg

/-- Round the magnitude `M * 2 ^ (x - 1074)` to single precision, to nearest
with ties to even (the C conversion to `float` in the default rounding mode). -/
def round32 (neg : Bool) (M x : Nat) : F32 :=
  let k := bitLength 64 M
  let y := max (x + k - 24) 925
  if y ≤ x then
    F32.encode neg (M * 2 ^ (x - y)) y
  else
    let q := M / 2 ^ (y - x)
    let r := M % 2 ^ (y - x)
    let half := 2 ^ (y - x - 1)
    if half < r ∨ (r = half ∧ q % 2 = 1) then F32.encode neg (q + 1) y
    else F32.encode neg q y

/-- The implicit conversion `float → double` (exact). -/
def F32.toF64 : F32 → F64
  | F32.nan => F64.nan
  | F32.inf s => F64.inf s
  | F32.fin s e f =>
    if e.val = 0 then
      if f.val = 0 then F64.fin s 0 0
      else
        -- subnormal single: normalise the fraction into a normal double
        let k := bitLength 64 f.val
        F64.fin s (Fin.ofNat (k + 873))
          ⟨(f.val * 2 ^ (53 - k) - 4503599627370496) % 4503599627370496,
            Nat.mod_lt _ (by decide)⟩
    else
      F64.fin s (Fin.ofNat (e.val + 896))
        ⟨(f.val * 536870912) % 4503599627370496, Nat.mod_lt _ (by decide)⟩

/-- The cast `(float) d` of a double. -/
def F64.toF32 : F64 → F32
  | F64.nan => F32.nan
  | F64.inf s => F32.inf s
  | F64.fin s e f =>
    round32 s (f.val + if e.val = 0 then 0 else 4503599627370496) (e.val - 1)

/-- The cast `(float) n` of a C `long`. -/
def longToF32 (n : Int) : F32 :=
  round32 (decide (n < 0)) n.natAbs 1074

/-- The literal `1.0` as a `t_float`. -/
def F32.one : F32 := F32.fin false 127 0

/-- The literal `0.0` as a `t_float`. -/
def F32.zero : F32 := F32.fin false 0 0

/-! ## Machine integers -/

/-- The cast `(int) len` of a non-negative `Py_ssize_t`: wraps modulo `2^32`
into the signed 32-bit range. -/
def castInt (len : Nat) : Int :=
  if len % 4294967296 < 2147483648 then ((len % 4294967296 : Nat) : Int)
  else ((len % 4294967296 : Nat) : Int) - 4294967296

/-! ## Data model -/

/-- A Pd atom (`t_atom`), by its type tag.  `other` stands for every tag besides
`A_FLOAT`, `A_SYMBOL` and `A_NULL` and carries the numeric tag. -/
inductive Atom where
  | float (f : F32)
  | symbol (s : String)
  | null
  | other (a_type : Nat)
  deriving DecidableEq

/-- A Python object as far as the bridge can tell objects apart.  `bool` are
the singletons `Py_True` and `Py_False`; `other` is any object that is none of
the listed kinds. -/
inductive PyObject where
  | none
  | bool (b : Bool)
  | float (d : F64)
  | long (n : Int)
  | unicode (s : String)
  | list (items : List PyObject)
  | tuple (items : List PyObject)
  | other (kind : Nat)

/-- An argument of a `post` call after its format string. -/
inductive PostArg where
  | str (s : String)
  | int (n : Int)
  deriving DecidableEq

/-- One call of Pd's `post`: a line on the Pd console. -/
structure PostCall where
  fmt : String
  args : List PostArg
  deriving DecidableEq

/-- A message sent through an outlet, by the Pd function that sent it. -/
inductive OutletMsg where
  | float (f : F32)
  | symbol (s : String)
  | list (argv : List Atom)
  | anything (selector : String) (argv : List Atom)
  deriving DecidableEq

/-- An entry of the embedded interpreter made by the bridge. -/
inductive PyEvent where
  | imported (name : PyObject)
  | getattr (name : String)
  | call (args : List PyObject)

/-- An attribute of a bound Python object: either not callable, or callable
with the result of calling it on an argument tuple (`none`: the call raised). -/
inductive PyAttr where
  | plain
  | callable (call : List PyObject → Option PyObject)

/-- A Python object a node can be bound to, by its attributes. -/
structure PyInstance where
  getattr : String → Option PyAttr

/-- An attribute of a Python module; a callable one is a factory whose result
(`none`: the call raised) becomes the bound object. -/
inductive PyModuleAttr where
  | plain
  | callable (call : List PyObject → Option PyInstance)

/-- An imported Python module, by its attributes. -/
structure PyModule where
  getattr : String → Option PyModuleAttr

/-- The Python modules that can be found: `modules path name` is the result
of importing `name` under search path `path` (`none`: the import failed). -/
structure PyEnv where
  modules : List String → String → Option PyModule

/-- Observable state of the Pd process and of the embedded interpreter. -/
structure World where
  console : List PostCall
  sent : List (Nat × OutletMsg)
  outlets : Nat
  sys_path : List String
  pycalls : List PyEvent
  py_err : Bool

/-- State of one Pd python object (`struct pdpython`). -/
structure t_pdpython where
  x_outlet : Nat
  py_object : Option PyInstance

/-! ## Host and interpreter primitives -/

/-- Pd `post(fmt, args...)`. -/
def post (fmt : String) (args : List PostArg) (w : World) : World :=
  { w with console := w.console ++ [⟨fmt, args⟩] }

/-- Pd `outlet_float`. -/
def outlet_float (x : Nat) (f : F32) (w : World) : World :=
  { w with sent := w.sent ++ [(x, OutletMsg.float f)] }

/-- Pd `outlet_symbol`. -/
def outlet_symbol (x : Nat) (s : String) (w : World) : World :=
  { w with sent := w.sent ++ [(x, OutletMsg.symbol s)] }

/-- Pd `outlet_list(x, &s_list, argc, argv)`: the first `argc` atoms at `argv`. -/
def outlet_list (x : Nat) (argc : Int) (argv : List Atom) (w : World) : World :=
  { w with sent := w.sent ++ [(x, OutletMsg.list (argv.take argc.toNat))] }

/-- Pd `outlet_anything(x, s, argc, argv)`: the first `argc` atoms at `argv`. -/
def outlet_anything (x : Nat) (s : String) (argc : Int) (argv : List Atom) (w : World) :
    World :=
  { w with sent := w.sent ++ [(x, OutletMsg.anything s (argv.take argc.toNat))] }

/-- Pd `outlet_new`: the next free outlet handle. -/
def outlet_new (w : World) : Nat × World :=
  (w.outlets, { w with outlets := w.outlets + 1 })

/-- The C string held by a Python string (`PyUnicode_AsUTF8`) as read by
`gensym`: the characters before the first NUL. -/
def cstr (s : String) : String :=
  ⟨s.data.takeWhile (fun c => c != Char.ofNat 0)⟩

/-- Record an interpreter entry. -/
def pyEvent (e : PyEvent) (w : World) : World :=
  { w with pycalls := w.pycalls ++ [e] }

/-- A failing interpreter call sets the error indicator. -/
def set_py_err (w : World) : World :=
  { w with py_err := true }

/-- Reading `a_w.w_symbol->s_name` of an atom: defined for symbol atoms only. -/
def w_symbol_name : Atom → Option String
  | Atom.symbol s => some s
  | _ => none

/-- Python `PyLong_AsLong`: the value when it fits a 64-bit `long`; otherwise
`-1`, with an `OverflowError` left pending. -/
def PyLong_AsLong (n : Int) (w : World) : Int × World :=
  if -9223372036854775808 ≤ n ∧ n ≤ 9223372036854775807 then (n, w)
  else (-1, set_py_err w)

/-- Python `PyArg_ParseTuple(args, "s", &text)`: exactly one string argument
without an embedded NUL; a failure leaves an exception pending. -/
def PyArg_ParseTuple_s (args : List PyObject) (w : World) : Option String × World :=
  match args with
  | [PyObject.unicode s] =>
    if s.data.contains (Char.ofNat 0) then (Option.none, set_py_err w) else (some s, w)
  | _ => (Option.none, set_py_err w)

/-- Python `PyObject_GetAttrString(o, name)` on an object with attributes
`getattr`: a missing attribute leaves an `AttributeError` pending. -/
def PyObject_GetAttrString {α : Type} (getattr : String → Option α) (name : String)
    (w : World) : Option α × World :=
  let w1 := pyEvent (PyEvent.getattr name) w
  match getattr name with
  | Option.none => (Option.none, set_py_err w1)
  | some attr => (some attr, w1)

/-- Python `PyObject_CallObject(func, args)`: the argument list must be a
tuple; the result is `none` when the call fails, which leaves an exception
pending.  With an exception already pending the call fails whatever the
callable returns. -/
def PyObject_CallObject {α : Type} (call : List PyObject → Option α) (args : PyObject)
    (w : World) : Option α × World :=
  match args with
  | PyObject.tuple items =>
    let w1 := pyEvent (PyEvent.call items) w
    if w.py_err then (Option.none, w1)
    else
      match call items with
      | Option.none => (Option.none, set_py_err w1)
      | some result => (some result, w1)
  | _ => (Option.none, set_py_err w)

/-- Python `PyImport_Import`: only a string names a module; a failed import
leaves an exception pending.  The import is itself a call of `__import__`, so
it fails while an exception is pending. -/
def PyImport_Import (env : PyEnv) (module_name : PyObject) (w : World) :
    Option PyModule × World :=
  let w1 := pyEvent (PyEvent.imported module_name) w
  if w.py_err then (Option.none, w1)
  else
    match module_name with
    | PyObject.unicode s =>
      match env.modules w.sys_path s with
      | Option.none => (Option.none, set_py_err w1)
      | some module => (some module, w1)
    | _ => (Option.none, set_py_err w1)

/-! ## The bridge -/

/-- Convert a Pd atom to a Python object. -/
def t_atom_to_PyObject (atom : Atom) (w : World) : PyObject × World :=
  match atom with
  | Atom.float f => (PyObject.float f.toF64, w)
  | Atom.symbol s => (PyObject.unicode s, w)
  | Atom.null => (PyObject.none, w)
  | Atom.other t =>
    (PyObject.none,
      post "Warning: type %d unsupported for conversion to Python." [PostArg.int t] w)

/-- The loop of `t_atom_list_to_PyObject_list`: the converted atoms in order. -/
def t_atom_list_to_PyObject_items : List Atom → World → List PyObject × World
  | [], w => ([], w)
  | atom :: rest, w =>
    let r := t_atom_to_PyObject atom w
    let rs := t_atom_list_to_PyObject_items rest r.2
    (r.1 :: rs.1, rs.2)

/-- Convert a list of Pd atoms into a Python tuple. -/
def t_atom_list_to_PyObject_list (argv : List Atom) (w : World) : PyObject × World :=
  let r := t_atom_list_to_PyObject_items argv w
  (PyObject.tuple r.1, r.2)

/-- Set a Pd atom to a representation of an atomic Python object. -/
def PyObject_to_atom (value : PyObject) (w : World) : Atom × World :=
  match value with
  | PyObject.bool true => (Atom.float F32.one, w)
  | PyObject.bool false => (Atom.float F32.zero, w)
  | PyObject.float d => (Atom.float d.toF32, w)
  | PyObject.long n =>
    let r := PyLong_AsLong n w
    (Atom.float (longToF32 r.1), r.2)
  | PyObject.unicode s => (Atom.symbol (cstr s), w)
  | _ => (Atom.symbol "error", w)

/-- The loop of `new_list_from_sequence`: the atoms of the elements in order. -/
def new_list_atoms : List PyObject → World → List Atom × World
  | [], w => ([], w)
  | elem :: rest, w =>
    let r := PyObject_to_atom elem w
    let rs := new_list_atoms rest r.2
    (r.1 :: rs.1, rs.2)

/-- Create the atom array of a Python list: `(argc, argv)`. -/
def new_list_from_sequence (seq : PyObject) (w : World) : (Int × List Atom) × World :=
  match seq with
  | PyObject.list items =>
    let r := new_list_atoms items w
    ((castInt items.length, r.1), r.2)
  | _ => ((0, []), w)

/-- Emit a Python object as an outlet message. -/
def emit_outlet_message (value : PyObject) (x_outlet : Nat) (w : World) : World :=
  match value with
  | PyObject.bool true => outlet_float x_outlet F32.one w
  | PyObject.bool false => outlet_float x_outlet F32.zero w
  | PyObject.float d => outlet_float x_outlet d.toF32 w
  | PyObject.long n =>
    let r := PyLong_AsLong n w
    outlet_float x_outlet (longToF32 r.1) r.2
  | PyObject.unicode s => outlet_symbol x_outlet (cstr s) w
  | PyObject.list items =>
    let r := new_list_from_sequence (PyObject.list items) w
    if r.1.1 > 0 then
      match r.1.2 with
      | Atom.symbol s :: rest => outlet_anything x_outlet s (r.1.1 - 1) rest r.2
      | _ => outlet_list x_outlet r.1.1 r.1.2 r.2
    else r.2
  | _ => w

/-- The tuple loop of `pdpython_eval`: emit each item in order. -/
def emit_each : List PyObject → Nat → World → World
  | [], _, w => w
  | elem :: rest, x_outlet, w => emit_each rest x_outlet (emit_outlet_message elem x_outlet w)

/-- Call a method of the associated Python object based on the inlet value. -/
def pdpython_eval (x : t_pdpython) (selector : String) (argvec : List Atom) (w : World) :
    t_pdpython × World :=
  match x.py_object with
  | Option.none =>
    (x, post "Warning: message sent to uninitialized python object." [] w)
  | some obj =>
    let func := PyObject_GetAttrString obj.getattr selector w
    let args := t_atom_list_to_PyObject_list argvec func.2
    let r : Option PyObject × World :=
      match func.1 with
      | Option.none =>
        (Option.none,
          post "Warning: no Python function found for selector %s." [PostArg.str selector]
            args.2)
      | some PyAttr.plain =>
        (Option.none,
          post "Warning: Python attribute for selector %s is not callable."
            [PostArg.str selector] args.2)
      | some (PyAttr.callable call) => PyObject_CallObject call args.1 args.2
    match r.1 with
    | Option.none =>
      (x, post "Warning: Python call for selector %s failed." [PostArg.str selector] r.2)
    | some (PyObject.tuple items) =>
      (x, emit_each (items.take (castInt items.length).toNat) x.x_outlet r.2)
    | some value => (x, emit_outlet_message value x.x_outlet r.2)

/-- The search-path step of `pdpython_new`: add the canvas directory to the
Python load path if not already present. -/
def add_canvas_path (canvas_path : String) (w : World) : World :=
  let w1 := post "modulepath: %s" [PostArg.str canvas_path] w
  if canvas_path ∈ w1.sys_path then w1
  else
    let w2 := post "Appending current canvas path to Python load path: %s"
      [PostArg.str canvas_path] w1
    { w2 with sys_path := w2.sys_path ++ [canvas_path] }

/-- The binding step of `pdpython_new` (at least two creation arguments):
the bound object, or `none` where the source reads the symbol name of an atom
that is not a symbol. -/
def bind_object (env : PyEnv) (canvas_path : String) (argvec : List Atom) (w : World) :
    Option (Option PyInstance × World) :=
  match argvec with
  | arg0 :: arg1 :: rest =>
    let w1 := add_canvas_path canvas_path w
    let name := t_atom_to_PyObject arg0 w1
    let m := PyImport_Import env name.1 name.2
    match m.1 with
    | Option.none =>
      (w_symbol_name arg0).map fun s =>
        (Option.none, post "Error: unable to import Python module %s." [PostArg.str s] m.2)
    | some module =>
      (w_symbol_name arg1).map fun s =>
        let func := PyObject_GetAttrString module.getattr s m.2
        match func.1 with
        | Option.none =>
          (Option.none, post "Error: Python function %s not found." [PostArg.str s] func.2)
        | some PyModuleAttr.plain =>
          (Option.none,
            post "Error: Python attribute %s is not callable." [PostArg.str s] func.2)
        | some (PyModuleAttr.callable call) =>
          let args := t_atom_list_to_PyObject_list rest func.2
          PyObject_CallObject call args.1 args.2
  | _ => Option.none

/-- Create an instance of a Pd python object.  `canvas_path` is the result of
`canvas_getcurrentdir()`. -/
def pdpython_new (env : PyEnv) (canvas_path : String) (_selector : String)
    (argvec : List Atom) (w : World) : Option (t_pdpython × World) :=
  let bound : Option (Option PyInstance × World) :=
    if argvec.length < 2 then
      some (Option.none,
        post ("Error: python objects require a module and function specified in the " ++
          "creation arguments.") [] w)
    else bind_object env canvas_path argvec w
  bound.map fun b =>
    let o := outlet_new b.2
    (({ x_outlet := o.1, py_object := b.1 } : t_pdpython), o.2)

/-- The `pdgui.post` callback: print a string to the Pd console.  The result
is `none` when the call fails (returns `NULL`). -/
def pdgui_post (args : List PyObject) (w : World) : Option PyObject × World :=
  let r := PyArg_ParseTuple_s args w
  match r.1 with
  | Option.none =>
    (Option.none,
      post "Warning: unprintable object posted to the console from a python object." []
        r.2)
  | some text => (some PyObject.none, post text [] r.2)

/-- Construct one node per creation request (selector and creation arguments),
all from the canvas directory `canvas_path`; `none` when a construction is
undefined. -/
def pdpython_new_each (env : PyEnv) (canvas_path : String) :
    List (String × List Atom) → World → Option World
  | [], w => some w
  | req :: rest, w =>
    match pdpython_new env canvas_path req.1 req.2 w with
    | Option.none => Option.none
    | some r => pdpython_new_each env canvas_path rest r.2

/-- The atom `PyObject_to_atom` writes for `value`. -/
def atom_of (value : PyObject) : Atom :=
  (PyObject_to_atom value ⟨[], [], 0, [], [], false⟩).1

/-- Whether `PyObject_to_atom` leaves an exception pending for `value`. -/
def atom_raises (value : PyObject) : Bool :=
  (PyObject_to_atom value ⟨[], [], 0, [], [], false⟩).2.py_err

/-- The messages `emit_outlet_message` sends for `value` on outlet `x_outlet`. -/
def messages_of (value : PyObject) (x_outlet : Nat) : List (Nat × OutletMsg) :=
  (emit_outlet_message value x_outlet ⟨[], [], 0, [], [], false⟩).sent

/-- Whether `emit_outlet_message` leaves an exception pending for `value`. -/
def emit_raises (value : PyObject) : Bool :=
  (emit_outlet_message value 0 ⟨[], [], 0, [], [], false⟩).py_err

/-- The console lines marshalling `argv` produces: one warning per atom of
unsupported type. -/
def marshal_warnings : List Atom → List PostCall
  | [] => []
  | Atom.other t :: rest =>
    ⟨"Warning: type %d unsupported for conversion to Python.", [PostArg.int t]⟩ ::
      marshal_warnings rest
  | _ :: rest => marshal_warnings rest

/-! ## Floating point lemmas -/

theorem bitLength_lt (fuel n : Nat) (h : n < 2 ^ fuel) : n < 2 ^ bitLength fuel n := by
  induction fuel generalizing n with
  | zero => simp at h; simp [bitLength, h]
  | succ fuel ih =>
    unfold bitLength
    split
    · omega
    · have h2 : n / 2 < 2 ^ fuel := by
        rw [Nat.div_lt_iff_lt_mul (by norm_num)]; rw [pow_succ] at h; exact h
      have := ih (n / 2) h2
      rw [pow_succ]
      omega

theorem bitLength_ge (fuel n : Nat) (h : n < 2 ^ fuel) (hn : n ≠ 0) :
    2 ^ (bitLength fuel n - 1) ≤ n := by
  induction fuel generalizing n with
  | zero => simp at h; omega
  | succ fuel ih =>
    unfold bitLength
    rw [if_neg hn]
    simp only [Nat.add_sub_cancel]
    have h2 : n / 2 < 2 ^ fuel := by
      rw [Nat.div_lt_iff_lt_mul (by norm_num)]; rw [pow_succ] at h; exact h
    by_cases h0 : n / 2 = 0
    · cases fuel with
      | zero => simp [bitLength]; omega
      | succ fuel => simp [bitLength, h0]; omega
    · have := ih (n / 2) h2 h0
      have hb : bitLength fuel (n / 2) ≠ 0 := by
        cases fuel with
        | zero => simp at h2; omega
        | succ fuel => simp [bitLength, h0]
      have e : bitLength fuel (n / 2) = (bitLength fuel (n / 2) - 1) + 1 := by omega
      rw [e, pow_succ]
      omega

theorem bitLength_eq (fuel n k : Nat) (h : n < 2 ^ fuel) (hlo : 2 ^ k ≤ n)
    (hhi : n < 2 ^ (k + 1)) : bitLength fuel n = k + 1 := by
  have hn : n ≠ 0 := by
    have : 0 < 2 ^ k := by positivity
    omega
  have h1 := bitLength_lt fuel n h
  have h2 := bitLength_ge fuel n h hn
  have a : k < bitLength fuel n := by
    by_contra hc
    have : 2 ^ bitLength fuel n ≤ 2 ^ k := Nat.pow_le_pow_right (by norm_num) (by omega)
    omega
  have b : bitLength fuel n - 1 < k + 1 := by
    by_contra hc
    have : 2 ^ (k + 1) ≤ 2 ^ (bitLength fuel n - 1) := Nat.pow_le_pow_right (by norm_num) (by omega)
    omega
  omega

theorem round32_normal (s : Bool) (e f : Nat) (he0 : e ≠ 0) (he : e < 255)
    (hf : f < 8388608) :
    round32 s (f * 536870912 + 4503599627370496) (e + 896 - 1) =
      F32.fin s ⟨e, he⟩ ⟨f, hf⟩ := by
  have hk : bitLength 64 (f * 536870912 + 4503599627370496) = 52 + 1 :=
    bitLength_eq 64 _ 52 (by norm_num; omega) (by norm_num) (by norm_num; omega)
  unfold round32
  simp only [hk]
  have hy : max (e + 896 - 1 + (52 + 1) - 24) 925 = e + 924 := by omega
  rw [hy]
  have hsh : e + 924 - (e + 896 - 1) = 29 := by omega
  rw [if_neg (by omega), hsh]
  have hq : (f * 536870912 + 4503599627370496) / 2 ^ 29 = f + 8388608 := by
    norm_num; omega
  have hr : (f * 536870912 + 4503599627370496) % 2 ^ 29 = 0 := by
    norm_num; omega
  rw [hq, hr, if_neg (by norm_num)]
  unfold F32.encode
  rw [dif_neg (by omega)]
  simp only [if_neg (show ¬ f + 8388608 = 16777216 by omega)]
  rw [dif_pos (by omega)]
  have h1 : e + 924 - 924 = e := by omega
  have h2 : (f + 8388608 - 8388608) % 8388608 = f := by omega
  simp only [h1, h2]

theorem round32_subnormal (s : Bool) (f : Nat) (hf0 : f ≠ 0) (hf : f < 8388608) :
    round32 s (f * 2 ^ (53 - bitLength 64 f)) (bitLength 64 f + 873 - 1) =
      F32.fin s 0 ⟨f, hf⟩ := by
  have hlt := bitLength_lt 64 f (by norm_num; omega)
  have hge := bitLength_ge 64 f (by norm_num; omega) hf0
  have hk1 : 1 ≤ bitLength 64 f := by
    by_contra hc
    have h0 : bitLength 64 f = 0 := by omega
    rw [h0] at hlt; simp at hlt; omega
  have hk23 : bitLength 64 f ≤ 23 := by
    by_contra hc
    have : 2 ^ 23 ≤ 2 ^ (bitLength 64 f - 1) := Nat.pow_le_pow_right (by norm_num) (by omega)
    norm_num at this; omega
  generalize bitLength 64 f = k at *
  have hM_lo : 2 ^ 52 ≤ f * 2 ^ (53 - k) := by
    calc 2 ^ 52 = 2 ^ (k - 1) * 2 ^ (53 - k) := by rw [← pow_add]; congr 1; omega
      _ ≤ f * 2 ^ (53 - k) := Nat.mul_le_mul_right _ hge
  have hM_hi : f * 2 ^ (53 - k) < 2 ^ 53 := by
    calc f * 2 ^ (53 - k) < 2 ^ k * 2 ^ (53 - k) :=
          Nat.mul_lt_mul_of_pos_right hlt (by positivity)
      _ = 2 ^ 53 := by rw [← pow_add]; congr 1; omega
  have hkM : bitLength 64 (f * 2 ^ (53 - k)) = 52 + 1 :=
    bitLength_eq 64 _ 52 (by norm_num at hM_hi ⊢; omega) hM_lo hM_hi
  unfold round32
  simp only [hkM]
  have hy : max (k + 873 - 1 + (52 + 1) - 24) 925 = 925 := by omega
  rw [hy, if_neg (by omega)]
  have hsh : 925 - (k + 873 - 1) = 53 - k := by omega
  rw [hsh]
  have hq : f * 2 ^ (53 - k) / 2 ^ (53 - k) = f := Nat.mul_div_cancel _ (by positivity)
  have hr : f * 2 ^ (53 - k) % 2 ^ (53 - k) = 0 := Nat.mul_mod_left _ _
  rw [hq, hr]
  have hhalf : ¬ (2 ^ (53 - k - 1) < 0 ∨ (0 = 2 ^ (53 - k - 1) ∧ f % 2 = 1)) := by
    have : 0 < 2 ^ (53 - k - 1) := by positivity
    omega
  rw [if_neg hhalf]
  unfold F32.encode
  rw [dif_pos hf]

theorem F32.encode_zero (s : Bool) (y : Nat) : F32.encode s 0 y = F32.fin s 0 0 := by
  unfold F32.encode
  rw [dif_pos (by decide)]
  rfl

theorem round32_zero (s : Bool) (x : Nat) : round32 s 0 x = F32.fin s 0 0 := by
  unfold round32
  have hpos : 0 < 2 ^ (max (x + bitLength 64 0 - 24) 925 - x - 1) := by positivity
  simp only [Nat.zero_mul, Nat.zero_div, Nat.zero_mod, F32.encode_zero]
  split
  · rfl
  · rw [if_neg (by omega)]

theorem F32.toF64_toF32 (v : F32) : v.toF64.toF32 = v := by
  cases v with
  | nan => rfl
  | inf s => rfl
  | fin s e f =>
    obtain ⟨e, he⟩ := e
    obtain ⟨f, hf⟩ := f
    by_cases he0 : e = 0
    · subst he0
      by_cases hf0 : f = 0
      · subst hf0
        simp only [F32.toF64, F64.toF32, if_true]
        simp only [Fin.val_zero, if_true, Nat.zero_add]
        rw [round32_zero]
        rfl
      · have hlt := bitLength_lt 64 f (by norm_num; omega)
        have hge := bitLength_ge 64 f (by norm_num; omega) hf0
        have hk1 : 1 ≤ bitLength 64 f := by
          by_contra hc
          have h0 : bitLength 64 f = 0 := by omega
          rw [h0] at hlt; simp at hlt; omega
        have hk23 : bitLength 64 f ≤ 23 := by
          by_contra hc
          have : 2 ^ 23 ≤ 2 ^ (bitLength 64 f - 1) :=
            Nat.pow_le_pow_right (by norm_num) (by omega)
          norm_num at this; omega
        have hM_lo : 2 ^ 52 ≤ f * 2 ^ (53 - bitLength 64 f) := by
          calc 2 ^ 52 = 2 ^ (bitLength 64 f - 1) * 2 ^ (53 - bitLength 64 f) := by
                rw [← pow_add]; congr 1; omega
            _ ≤ f * 2 ^ (53 - bitLength 64 f) := Nat.mul_le_mul_right _ hge
        have hM_hi : f * 2 ^ (53 - bitLength 64 f) < 2 ^ 53 := by
          calc f * 2 ^ (53 - bitLength 64 f)
                < 2 ^ bitLength 64 f * 2 ^ (53 - bitLength 64 f) :=
                Nat.mul_lt_mul_of_pos_right hlt (by positivity)
            _ = 2 ^ 53 := by rw [← pow_add]; congr 1; omega
        have key := round32_subnormal s f hf0 hf
        simp only [F32.toF64, F64.toF32, Fin.ofNat, if_neg hf0, if_true]
        have hE : (bitLength 64 f + 873) % (2046 + 1) = bitLength 64 f + 873 := by omega
        have hF : (f * 2 ^ (53 - bitLength 64 f) - 4503599627370496) % 4503599627370496
            = f * 2 ^ (53 - bitLength 64 f) - 4503599627370496 := by
          norm_num at hM_lo hM_hi; omega
        have hM : f * 2 ^ (53 - bitLength 64 f) - 4503599627370496 + 4503599627370496
            = f * 2 ^ (53 - bitLength 64 f) := by
          norm_num at hM_lo; omega
        simp only [hE, hF]
        rw [if_neg (by omega), hM]
        exact key
    · have key := round32_normal s e f he0 he hf
      simp only [F32.toF64, F64.toF32, Fin.ofNat, if_neg he0]
      have hE : (e + 896) % (2046 + 1) = e + 896 := by omega
      have hF : f * 536870912 % 4503599627370496 = f * 536870912 := by omega
      simp only [hE, hF]
      rw [if_neg (by omega)]
      exact key

/-! ## Lemmas on the bridge -/

theorem castInt_of_lt (n : Nat) (h : n < 2147483648) : castInt n = (n : Int) := by
  unfold castInt
  have e : n % 4294967296 = n := Nat.mod_eq_of_lt (by omega)
  rw [e, if_pos h]

theorem items_fst (argv : List Atom) (w w' : World) :
    (t_atom_list_to_PyObject_items argv w).1 = (t_atom_list_to_PyObject_items argv w').1 := by
  induction argv generalizing w w' with
  | nil => rfl
  | cons a rest ih =>
    simp only [t_atom_list_to_PyObject_items]
    rw [ih (t_atom_to_PyObject a w).2 (t_atom_to_PyObject a w').2]
    cases a <;> rfl

theorem items_snd (argv : List Atom) (w : World) :
    (t_atom_list_to_PyObject_items argv w).2 =
      { w with console := w.console ++ marshal_warnings argv } := by
  induction argv generalizing w with
  | nil => simp [t_atom_list_to_PyObject_items, marshal_warnings]
  | cons a rest ih =>
    simp only [t_atom_list_to_PyObject_items]
    rw [ih]
    cases a <;> simp [t_atom_to_PyObject, marshal_warnings, post]

theorem PyObject_to_atom_eq (value : PyObject) (w : World) :
    PyObject_to_atom value w =
      (atom_of value, { w with py_err := w.py_err || atom_raises value }) := by
  cases w
  cases value with
  | bool b => cases b <;> simp [PyObject_to_atom, atom_of, atom_raises]
  | long n =>
    simp only [PyObject_to_atom, atom_of, atom_raises, PyLong_AsLong, set_py_err]
    split <;> simp
  | float d => simp [PyObject_to_atom, atom_of, atom_raises]
  | unicode s => simp [PyObject_to_atom, atom_of, atom_raises]
  | list items => simp [PyObject_to_atom, atom_of, atom_raises]
  | none => simp [PyObject_to_atom, atom_of, atom_raises]
  | tuple items => simp [PyObject_to_atom, atom_of, atom_raises]
  | other k => simp [PyObject_to_atom, atom_of, atom_raises]

theorem new_list_atoms_eq (items : List PyObject) (w : World) :
    new_list_atoms items w =
      (items.map atom_of, { w with py_err := w.py_err || items.any atom_raises }) := by
  induction items generalizing w with
  | nil => cases w; simp [new_list_atoms]
  | cons v rest ih =>
    simp only [new_list_atoms, PyObject_to_atom_eq, ih, List.map_cons, List.any_cons,
      Bool.or_assoc]

theorem emit_list (items : List PyObject) (x_outlet : Nat) (w : World)
    (hlen : items.length < 2147483648) :
    emit_outlet_message (PyObject.list items) x_outlet w =
      match items.map atom_of with
      | [] => { w with py_err := w.py_err || items.any atom_raises }
      | Atom.symbol s :: rest =>
        { w with
          sent := w.sent ++ [(x_outlet, OutletMsg.anything s rest)],
          py_err := w.py_err || items.any atom_raises }
      | atoms =>
        { w with
          sent := w.sent ++ [(x_outlet, OutletMsg.list atoms)],
          py_err := w.py_err || items.any atom_raises } := by
  unfold emit_outlet_message new_list_from_sequence
  simp only [castInt_of_lt _ hlen, new_list_atoms_eq]
  cases items with
  | nil => simp
  | cons v rest =>
    have hpos : ((v :: rest).length : Int) > 0 := by simp
    rw [if_pos hpos]
    have htake : ∀ l : List Atom, l.length = rest.length →
        List.take (((v :: rest).length : Int) - 1).toNat l = l := by
      intro l hl
      apply List.take_of_length_le
      simp; omega
    have htake2 : ∀ l : List Atom, l.length = (v :: rest).length →
        List.take ((v :: rest).length : Int).toNat l = l := by
      intro l hl
      apply List.take_of_length_le
      simp at hl ⊢; omega
    simp only [List.map_cons]
    cases h : atom_of v with
    | symbol s =>
      simp only [outlet_anything]
      rw [htake _ (by simp)]
    | float f =>
      simp only [outlet_list]
      rw [htake2 _ (by simp)]
    | null =>
      simp only [outlet_list]
      rw [htake2 _ (by simp)]
    | other t =>
      simp only [outlet_list]
      rw [htake2 _ (by simp)]

theorem emit_list_nonpos (items : List PyObject) (x_outlet : Nat) (w : World)
    (h : castInt items.length ≤ 0) :
    (emit_outlet_message (PyObject.list items) x_outlet w).sent = w.sent := by
  unfold emit_outlet_message new_list_from_sequence
  simp only [new_list_atoms_eq]
  rw [if_neg (by omega)]

theorem emit_list_pos (items : List PyObject) (x_outlet : Nat) (w : World)
    (h : 0 < castInt items.length) :
    ∃ m, (emit_outlet_message (PyObject.list items) x_outlet w).sent = w.sent ++ [m] := by
  unfold emit_outlet_message new_list_from_sequence
  simp only [new_list_atoms_eq]
  rw [if_pos (by omega)]
  split
  · exact ⟨_, rfl⟩
  · exact ⟨_, rfl⟩

theorem emit_sent (value : PyObject) (x_outlet : Nat) (w : World) :
    emit_outlet_message value x_outlet w =
      { w with
        sent := w.sent ++ messages_of value x_outlet,
        py_err := w.py_err || emit_raises value } := by
  cases w
  cases value with
  | bool b => cases b <;> simp [emit_outlet_message, messages_of, emit_raises, outlet_float]
  | float d => simp [emit_outlet_message, messages_of, emit_raises, outlet_float]
  | long n =>
    simp only [emit_outlet_message, messages_of, emit_raises, outlet_float, PyLong_AsLong,
      set_py_err]
    split <;> simp
  | unicode s => simp [emit_outlet_message, messages_of, emit_raises, outlet_symbol]
  | list items =>
    simp only [emit_outlet_message, messages_of, emit_raises, new_list_from_sequence,
      new_list_atoms_eq]
    split
    · split <;> simp [outlet_anything, outlet_list]
    · simp
  | none => simp [emit_outlet_message, messages_of, emit_raises]
  | tuple items => simp [emit_outlet_message, messages_of, emit_raises]
  | other k => simp [emit_outlet_message, messages_of, emit_raises]

theorem emit_each_sent (items : List PyObject) (x_outlet : Nat) (w : World) :
    emit_each items x_outlet w =
      { w with
        sent := w.sent ++ items.flatMap fun v => messages_of v x_outlet,
        py_err := w.py_err || items.any emit_raises } := by
  induction items generalizing w with
  | nil => cases w; simp [emit_each]
  | cons v rest ih =>
    simp only [emit_each]
    rw [ih, emit_sent]
    simp [List.flatMap_cons, Bool.or_assoc]

theorem messages_of_emitting (value : PyObject) (x_outlet : Nat)
    (h : (∃ b, value = PyObject.bool b) ∨ (∃ d, value = PyObject.float d) ∨
      (∃ n, value = PyObject.long n) ∨ (∃ s, value = PyObject.unicode s) ∨
      (∃ l, value = PyObject.list l ∧ 0 < castInt l.length)) :
    ∃ m, messages_of value x_outlet = [m] := by
  rcases h with ⟨b, rfl⟩ | ⟨d, rfl⟩ | ⟨n, rfl⟩ | ⟨s, rfl⟩ | ⟨l, rfl, hpos⟩
  · cases b <;> exact ⟨_, rfl⟩
  · exact ⟨_, rfl⟩
  · simp only [messages_of, emit_outlet_message, PyLong_AsLong, outlet_float]
    split <;> exact ⟨_, rfl⟩
  · exact ⟨_, rfl⟩
  · obtain ⟨m, hm⟩ := emit_list_pos l x_outlet ⟨[], [], 0, [], [], false⟩ hpos
    exact ⟨m, by simpa [messages_of] using hm⟩

theorem messages_of_silent (value : PyObject) (x_outlet : Nat)
    (h : value = PyObject.none ∨ (∃ t, value = PyObject.tuple t) ∨
      (∃ k, value = PyObject.other k) ∨
      (∃ l, value = PyObject.list l ∧ castInt l.length ≤ 0)) :
    messages_of value x_outlet = [] := by
  rcases h with rfl | ⟨t, rfl⟩ | ⟨k, rfl⟩ | ⟨l, rfl, hle⟩
  · rfl
  · rfl
  · rfl
  · exact emit_list_nonpos l x_outlet ⟨[], [], 0, [], [], false⟩ hle

theorem call_sys_path {α : Type} (call : List PyObject → Option α) (args : PyObject)
    (w : World) : (PyObject_CallObject call args w).2.sys_path = w.sys_path := by
  unfold PyObject_CallObject
  split
  · simp only
    split
    · rfl
    · split <;> rfl
  · rfl

theorem getattr_sys_path {α : Type} (getattr : String → Option α) (name : String)
    (w : World) : (PyObject_GetAttrString getattr name w).2.sys_path = w.sys_path := by
  unfold PyObject_GetAttrString
  simp only
  split <;> rfl

theorem import_sys_path (env : PyEnv) (name : PyObject) (w : World) :
    (PyImport_Import env name w).2.sys_path = w.sys_path := by
  unfold PyImport_Import
  simp only
  split
  · rfl
  · split
    · split <;> rfl
    · rfl

theorem atom_sys_path (a : Atom) (w : World) :
    (t_atom_to_PyObject a w).2.sys_path = w.sys_path := by
  cases a <;> rfl

theorem add_canvas_path_sys_path (d : String) (w : World) :
    (add_canvas_path d w).sys_path =
      if d ∈ w.sys_path then w.sys_path else w.sys_path ++ [d] := by
  unfold add_canvas_path
  by_cases h : d ∈ w.sys_path
  · simp [post, h]
  · simp [post, h]

theorem bind_object_sys_path (env : PyEnv) (d : String) (argvec : List Atom) (w : World)
    (r : Option PyInstance × World) (h : bind_object env d argvec w = some r) :
    r.2.sys_path = (add_canvas_path d w).sys_path := by
  unfold bind_object at h
  split at h
  · rename_i arg0 arg1 rest
    simp only at h
    have himp := import_sys_path env (t_atom_to_PyObject arg0 (add_canvas_path d w)).1
      (t_atom_to_PyObject arg0 (add_canvas_path d w)).2
    rw [atom_sys_path] at himp
    split at h
    · simp only [Option.map_eq_some'] at h
      obtain ⟨s, -, rfl⟩ := h
      simpa [post] using himp
    · simp only [Option.map_eq_some'] at h
      obtain ⟨s, -, rfl⟩ := h
      rename_i module hm
      have hget := getattr_sys_path module.getattr s
        (PyImport_Import env (t_atom_to_PyObject arg0 (add_canvas_path d w)).1
          (t_atom_to_PyObject arg0 (add_canvas_path d w)).2).2
      rw [himp] at hget
      split
      · simpa [post] using hget
      · simpa [post] using hget
      · rw [call_sys_path]
        simp only [t_atom_list_to_PyObject_list, items_snd]
        exact hget
  · simp at h

theorem bind_object_defined (env : PyEnv) (d : String) (m f : String) (rest : List Atom)
    (w : World) :
    (bind_object env d (Atom.symbol m :: Atom.symbol f :: rest) w).isSome = true := by
  unfold bind_object
  simp only
  split <;> simp [w_symbol_name]

theorem pdpython_new_sys_path (env : PyEnv) (d selector : String) (argvec : List Atom)
    (w : World) (r : t_pdpython × World) (hlen : 2 ≤ argvec.length)
    (h : pdpython_new env d selector argvec w = some r) :
    r.2.sys_path = (add_canvas_path d w).sys_path := by
  unfold pdpython_new at h
  rw [if_neg (by omega)] at h
  simp only [Option.map_eq_some'] at h
  obtain ⟨b, hb, rfl⟩ := h
  simp only [outlet_new]
  exact bind_object_sys_path env d argvec w b hb

theorem pdpython_new_each_registered (env : PyEnv) (d : String)
    (reqs : List (String × List Atom)) (w w' : World)
    (hlen : ∀ r ∈ reqs, 2 ≤ r.2.length) (hd : d ∈ w.sys_path)
    (h : pdpython_new_each env d reqs w = some w') : w'.sys_path = w.sys_path := by
  induction reqs generalizing w with
  | nil =>
    simp only [pdpython_new_each, Option.some.injEq] at h
    rw [← h]
  | cons req rest ih =>
    simp only [pdpython_new_each] at h
    split at h
    · simp at h
    · rename_i r hr
      have h1 := pdpython_new_sys_path env d req.1 req.2 w r
        (hlen req (List.mem_cons_self _ _)) hr
      rw [add_canvas_path_sys_path, if_pos hd] at h1
      have h2 := ih r.2 (fun q hq => hlen q (List.mem_cons_of_mem _ hq)) (h1 ▸ hd) h
      rw [h2, h1]

theorem pdpython_new_each_defined (env : PyEnv) (d : String)
    (reqs : List (String × List Atom)) (w : World)
    (hsym : ∀ r ∈ reqs, ∃ m f rest, r.2 = Atom.symbol m :: Atom.symbol f :: rest) :
    (pdpython_new_each env d reqs w).isSome = true := by
  induction reqs generalizing w with
  | nil => rfl
  | cons req rest ih =>
    simp only [pdpython_new_each]
    obtain ⟨m, f, tl, hreq⟩ := hsym req (List.mem_cons_self _ _)
    have hb := bind_object_defined env d m f tl w
    have hn : (pdpython_new env d req.1 req.2 w).isSome = true := by
      unfold pdpython_new
      rw [hreq, if_neg (by simp)]
      simp only [Option.isSome_map']
      exact hb
    split
    · rename_i hnone
      rw [hnone] at hn
      simp at hn
    · exact ih _ (fun q hq => hsym q (List.mem_cons_of_mem _ hq))

theorem eval_tuple (x : t_pdpython) (obj : PyInstance) (selector : String)
    (argvec : List Atom) (w : World) (call : List PyObject → Option PyObject)
    (items : List PyObject) (hobj : x.py_object = some obj)
    (hattr : obj.getattr selector = some (PyAttr.callable call))
    (hcall : call (t_atom_list_to_PyObject_items argvec w).1 = some (PyObject.tuple items))
    (hw : w.py_err = false) :
    pdpython_eval x selector argvec w =
      (x, emit_each (items.take (castInt items.length).toNat) x.x_outlet
        { w with
          console := w.console ++ marshal_warnings argvec,
          pycalls := w.pycalls ++ [PyEvent.getattr selector,
            PyEvent.call (t_atom_list_to_PyObject_items argvec w).1] }) := by
  unfold pdpython_eval
  rw [hobj]
  have hargs := items_fst argvec (pyEvent (PyEvent.getattr selector) w) w
  simp only [PyObject_GetAttrString, hattr, t_atom_list_to_PyObject_list,
    PyObject_CallObject, hargs, hcall]
  simp only [items_snd, pyEvent, hw, List.append_assoc, List.singleton_append]
  simp

theorem eval_pending (x : t_pdpython) (obj : PyInstance) (selector : String)
    (argvec : List Atom) (w : World) (call : List PyObject → Option PyObject)
    (hobj : x.py_object = some obj)
    (hattr : obj.getattr selector = some (PyAttr.callable call))
    (hw : w.py_err = true) :
    pdpython_eval x selector argvec w =
      (x, { w with
        console := w.console ++ marshal_warnings argvec ++
          [⟨"Warning: Python call for selector %s failed.", [PostArg.str selector]⟩],
        pycalls := w.pycalls ++ [PyEvent.getattr selector,
          PyEvent.call (t_atom_list_to_PyObject_items argvec w).1] }) := by
  unfold pdpython_eval
  rw [hobj]
  have hargs := items_fst argvec (pyEvent (PyEvent.getattr selector) w) w
  simp only [PyObject_GetAttrString, hattr, t_atom_list_to_PyObject_list,
    PyObject_CallObject, hargs]
  simp only [items_snd, pyEvent, hw, post, List.append_assoc, List.singleton_append]
  simp

theorem add_canvas_path_again (d : String) (k : Nat) (w : World) (hd : d ∈ w.sys_path) :
    (Nat.iterate (add_canvas_path d) k w).sys_path = w.sys_path := by
  induction k generalizing w with
  | zero => rfl
  | succ k ih =>
    have h1 : (add_canvas_path d w).sys_path = w.sys_path := by
      rw [add_canvas_path_sys_path, if_pos hd]
    rw [Function.iterate_succ_apply, ih (add_canvas_path d w) (h1 ▸ hd), h1]


/-! ## Theorems -/

/-- C3: a message to a node whose `py_object` is absent logs the
uninitialized-object warning and does nothing else: no interpreter entry is
made (no attribute lookup, no call), nothing is sent on any outlet, the search
path is untouched and the node is returned unchanged. -/
theorem eval_unbound (x : t_pdpython) (selector : String) (argvec : List Atom) (w : World)
    (h : x.py_object = Option.none) :
    pdpython_eval x selector argvec w =
      (x, { w with console := w.console ++
        [⟨"Warning: message sent to uninitialized python object.", []⟩] }) := by
  unfold pdpython_eval
  rw [h]
  rfl

theorem eval_unbound_witness :
    (⟨3, Option.none⟩ : t_pdpython).py_object = Option.none ∧
    pdpython_eval ⟨3, Option.none⟩ "goto" [Atom.float F32.one, Atom.symbol "home"]
        ⟨[], [], 4, ["/usr/lib/python3"], [], false⟩ =
      (⟨3, Option.none⟩,
        ⟨[⟨"Warning: message sent to uninitialized python object.", []⟩], [], 4,
          ["/usr/lib/python3"], [], false⟩) :=
  ⟨rfl, eval_unbound ⟨3, Option.none⟩ "goto" [Atom.float F32.one, Atom.symbol "home"]
    ⟨[], [], 4, ["/usr/lib/python3"], [], false⟩ rfl⟩

/-- C7: converting a float atom to a Python object and back with
`t_atom_to_PyObject` then `PyObject_to_atom` gives a float atom with exactly
the same single-precision value; nothing is logged and no exception is left
pending. -/
theorem float_atom_roundtrip (f : F32) (w : World) :
    PyObject_to_atom (t_atom_to_PyObject (Atom.float f) w).1
        (t_atom_to_PyObject (Atom.float f) w).2 = (Atom.float f, w) := by
  simp [t_atom_to_PyObject, PyObject_to_atom, F32.toF64_toF32]

/-- C8: with fewer than two creation arguments `pdpython_new` still returns a
node, with a freshly allocated outlet and no bound object; it logs one error
line, leaves the search path alone and makes no interpreter entry (so nothing
is imported).  Every later message to that node only logs the
uninitialized-object warning and sends nothing. -/
theorem new_with_too_few_arguments (env : PyEnv) (canvas_path selector : String)
    (argvec : List Atom) (w : World) (h : argvec.length < 2) :
    pdpython_new env canvas_path selector argvec w =
      some (⟨w.outlets, Option.none⟩,
        { w with
          console := w.console ++
            [⟨"Error: python objects require a module and function specified in the " ++
              "creation arguments.", []⟩],
          outlets := w.outlets + 1 }) ∧
    ∀ (selector' : String) (argvec' : List Atom) (w' : World),
      pdpython_eval ⟨w.outlets, Option.none⟩ selector' argvec' w' =
        (⟨w.outlets, Option.none⟩, { w' with console := w'.console ++
          [⟨"Warning: message sent to uninitialized python object.", []⟩] }) := by
  constructor
  · unfold pdpython_new
    rw [if_pos h]
    rfl
  · intro selector' argvec' w'
    rfl

theorem new_with_too_few_arguments_witness :
    [Atom.symbol "mymodule"].length < 2 ∧
    (pdpython_new ⟨fun _ _ => Option.none⟩ "/home/pd" "python" [Atom.symbol "mymodule"]
        ⟨[], [], 0, ["/usr/lib/python3"], [], false⟩ =
      some (⟨0, Option.none⟩,
        { (⟨[], [], 0, ["/usr/lib/python3"], [], false⟩ : World) with
          console := [] ++
            [⟨"Error: python objects require a module and function specified in the " ++
              "creation arguments.", []⟩],
          outlets := 0 + 1 }) ∧
    ∀ (selector' : String) (argvec' : List Atom) (w' : World),
      pdpython_eval ⟨0, Option.none⟩ selector' argvec' w' =
        (⟨0, Option.none⟩, { w' with console := w'.console ++
          [⟨"Warning: message sent to uninitialized python object.", []⟩] })) :=
  ⟨by decide, new_with_too_few_arguments ⟨fun _ _ => Option.none⟩ "/home/pd" "python"
    [Atom.symbol "mymodule"] ⟨[], [], 0, ["/usr/lib/python3"], [], false⟩ (by decide)⟩

/-- C2 as stated fails for very long lists: for a list of `2^31` floats the
count `(int) len` is negative, so `emit_outlet_message` sends no message at
all, although the list is non-empty and its first atom is not a symbol. -/
theorem huge_list_sends_nothing :
    List.replicate 2147483648 (PyObject.float (F64.fin false 0 0)) ≠ [] ∧
    (∀ s, (List.map atom_of
        (List.replicate 2147483648 (PyObject.float (F64.fin false 0 0)))).head? ≠
          some (Atom.symbol s)) ∧
    (emit_outlet_message
      (PyObject.list (List.replicate 2147483648 (PyObject.float (F64.fin false 0 0)))) 0
      ⟨[], [], 1, [], [], false⟩).sent = [] := by
  refine ⟨?_, ?_, ?_⟩
  · intro h
    have hl := congrArg List.length h
    rw [List.length_replicate, List.length_nil] at hl
    exact absurd hl (by decide)
  · intro s h
    have e : (2147483648 : Nat) = 2147483647 + 1 := rfl
    rw [e, List.replicate_succ, List.map_cons, List.head?_cons] at h
    simp only [atom_of, PyObject_to_atom, Option.some.injEq] at h
    exact Atom.noConfusion h
  · apply emit_list_nonpos _ 0 ⟨[], [], 1, [], [], false⟩ _
    rw [List.length_replicate]
    decide

/-- C2 (amended): for a non-empty Python list of fewer than `2^31` elements,
with atoms obtained by `PyObject_to_atom` from each element in order:
if the first atom is a symbol, exactly one message is sent, with that symbol
as selector and the remaining atoms as arguments; otherwise exactly one plain
list message is sent, carrying all the atoms in order.  Nothing else changes,
except that an exception is left pending when an element is an integer that
does not fit a `long`. -/
theorem flat_list_message (items : List PyObject) (x_outlet : Nat) (w : World)
    (hne : items ≠ []) (hlen : items.length < 2147483648) :
    (∀ s, (items.map atom_of).head? = some (Atom.symbol s) →
      emit_outlet_message (PyObject.list items) x_outlet w =
        { w with
          sent := w.sent ++ [(x_outlet, OutletMsg.anything s (items.map atom_of).tail)],
          py_err := w.py_err || items.any atom_raises }) ∧
    ((∀ s, (items.map atom_of).head? ≠ some (Atom.symbol s)) →
      emit_outlet_message (PyObject.list items) x_outlet w =
        { w with
          sent := w.sent ++ [(x_outlet, OutletMsg.list (items.map atom_of))],
          py_err := w.py_err || items.any atom_raises }) := by
  rw [emit_list items x_outlet w hlen]
  cases items with
  | nil => exact absurd rfl hne
  | cons v rest =>
    simp only [List.map_cons, List.head?_cons, List.tail_cons]
    cases h : atom_of v with
    | symbol s0 =>
      constructor
      · intro s hs
        simp only [Option.some.injEq, Atom.symbol.injEq] at hs
        subst hs
        rfl
      · intro hs
        exact absurd rfl (hs s0)
    | float f => simp
    | null => simp
    | other t => simp

theorem flat_list_message_witness :
    (emit_outlet_message
      (PyObject.list [PyObject.unicode "goto", PyObject.bool true, PyObject.unicode "home"])
      0 ⟨[], [], 1, [], [], false⟩).sent =
      [(0, OutletMsg.anything "goto" [Atom.float F32.one, Atom.symbol "home"])] ∧
    (emit_outlet_message (PyObject.list [PyObject.bool false, PyObject.unicode "x"])
      0 ⟨[], [], 1, [], [], false⟩).sent =
      [(0, OutletMsg.list [Atom.float F32.zero, Atom.symbol "x"])] := by
  constructor
  · rw [(flat_list_message
      [PyObject.unicode "goto", PyObject.bool true, PyObject.unicode "home"] 0
      ⟨[], [], 1, [], [], false⟩ (by simp) (by simp)).1 "goto" rfl]
    rfl
  · rw [(flat_list_message [PyObject.bool false, PyObject.unicode "x"] 0
      ⟨[], [], 1, [], [], false⟩ (by simp) (by simp)).2 (by simp [atom_of, PyObject_to_atom])]
    rfl

/-- C10 as stated fails for the empty list: it produces no outgoing message,
where the claim says exactly one plain list message is sent.  It also fails
for a list of `2^31` integers, whose count `(int) len` is negative: no message
is sent either. -/
theorem empty_list_sends_nothing :
    emit_outlet_message (PyObject.list []) 0 ⟨[], [], 1, [], [], false⟩ =
      ⟨[], [], 1, [], [], false⟩ ∧
    (emit_outlet_message (PyObject.list []) 0 ⟨[], [], 1, [], [], false⟩).sent.length = 0 ∧
    (emit_outlet_message (PyObject.list (List.replicate 2147483648 (PyObject.long 0))) 0
      ⟨[], [], 1, [], [], false⟩).sent.length = 0 := by
  refine ⟨rfl, rfl, ?_⟩
  rw [emit_list_nonpos _ 0 ⟨[], [], 1, [], [], false⟩ (by rw [List.length_replicate]; decide)]
  rfl

/-- C10 (amended): the empty list sends no message.  A non-empty list of
fewer than `2^31` elements whose first converted atom is not a symbol sends
exactly one plain list message carrying the whole converted sequence, and
every non-empty list of fewer than `2^31` elements sends exactly one
message. -/
theorem nonsymbolic_list_message (items : List PyObject) (x_outlet : Nat) (w : World) :
    (items = [] → emit_outlet_message (PyObject.list items) x_outlet w = w) ∧
    (items ≠ [] → items.length < 2147483648 →
      (∀ s, (items.map atom_of).head? ≠ some (Atom.symbol s)) →
      emit_outlet_message (PyObject.list items) x_outlet w =
        { w with
          sent := w.sent ++ [(x_outlet, OutletMsg.list (items.map atom_of))],
          py_err := w.py_err || items.any atom_raises }) ∧
    (items ≠ [] → items.length < 2147483648 →
      (emit_outlet_message (PyObject.list items) x_outlet w).sent.length =
        w.sent.length + 1) := by
  refine ⟨?_, ?_, ?_⟩
  · intro h
    subst h
    rfl
  · intro hne hlen hs
    rw [emit_list items x_outlet w hlen]
    cases items with
    | nil => exact absurd rfl hne
    | cons v rest =>
      simp only [List.map_cons, List.head?_cons] at hs ⊢
      cases h : atom_of v with
      | symbol s0 => rw [h] at hs; exact absurd rfl (hs s0)
      | float f => rfl
      | null => rfl
      | other t => rfl
  · intro hne hlen
    rw [emit_list items x_outlet w hlen]
    cases items with
    | nil => exact absurd rfl hne
    | cons v rest =>
      simp only [List.map_cons]
      cases h : atom_of v <;> simp

theorem nonsymbolic_list_message_witness :
    emit_outlet_message (PyObject.list [PyObject.long 1, PyObject.long 2]) 5
        ⟨[], [], 6, [], [], false⟩ =
      { (⟨[], [], 6, [], [], false⟩ : World) with
        sent := [] ++
          [(5, OutletMsg.list (List.map atom_of [PyObject.long 1, PyObject.long 2]))],
        py_err := false || [PyObject.long 1, PyObject.long 2].any atom_raises } :=
  (nonsymbolic_list_message [PyObject.long 1, PyObject.long 2] 5
    ⟨[], [], 6, [], [], false⟩).2.1
    (by simp) (by simp) (by simp [atom_of, PyObject_to_atom])

/-- C5 as stated fails: a rejected `pdgui.post` call (here with an integer
argument) does put a line on the Pd console, the fixed warning. -/
theorem rejected_post_reaches_console :
    (∀ s, [PyObject.long 7] ≠ [PyObject.unicode s]) ∧
    (pdgui_post [PyObject.long 7] ⟨[], [], 0, [], [], false⟩).1 = Option.none ∧
    (pdgui_post [PyObject.long 7] ⟨[], [], 0, [], [], false⟩).2.console =
      [⟨"Warning: unprintable object posted to the console from a python object.", []⟩] ∧
    (pdgui_post [PyObject.long 7] ⟨[], [], 0, [], [], false⟩).2.console ≠ [] :=
  ⟨by simp, rfl, rfl, by simp [pdgui_post, PyArg_ParseTuple_s, post]⟩

/-- C5 (amended): when the argument tuple of `pdgui.post` is not exactly one
string the call fails (with an exception pending, as for any failed call) and
exactly one line, a fixed warning, is posted to the Pd console; the arguments
themselves are not printed.  The call succeeds only for a single string
argument, and then that string is what is posted. -/
theorem pdgui_post_rejects (args : List PyObject) (w : World) :
    ((∀ s, args ≠ [PyObject.unicode s]) →
      pdgui_post args w =
        (Option.none, { w with
          console := w.console ++
            [⟨"Warning: unprintable object posted to the console from a python object.",
              []⟩],
          py_err := true })) ∧
    ((pdgui_post args w).1 ≠ Option.none →
      ∃ s, args = [PyObject.unicode s] ∧
        pdgui_post args w =
          (some PyObject.none, { w with console := w.console ++ [⟨s, []⟩] })) := by
  have hrej : (∀ s, args ≠ [PyObject.unicode s]) →
      pdgui_post args w =
        (Option.none, { w with
          console := w.console ++
            [⟨"Warning: unprintable object posted to the console from a python object.",
              []⟩],
          py_err := true }) := by
    intro h
    unfold pdgui_post PyArg_ParseTuple_s
    split
    · rename_i s
      exact absurd rfl (h s)
    · rfl
  refine ⟨hrej, ?_⟩
  intro h
  by_cases hs : ∃ s, args = [PyObject.unicode s]
  · obtain ⟨s, rfl⟩ := hs
    refine ⟨s, rfl, ?_⟩
    simp only [pdgui_post, PyArg_ParseTuple_s] at h ⊢
    generalize s.data.contains (Char.ofNat 0) = c at h ⊢
    cases c
    · rfl
    · simp at h
  · rw [hrej (fun s hs' => hs ⟨s, hs'⟩)] at h
    simp at h

theorem pdgui_post_rejects_witness :
    pdgui_post [] ⟨[], [], 0, [], [], false⟩ =
      (Option.none, { (⟨[], [], 0, [], [], false⟩ : World) with
        console := [] ++
          [⟨"Warning: unprintable object posted to the console from a python object.",
            []⟩],
        py_err := true }) :=
  (pdgui_post_rejects [] ⟨[], [], 0, [], [], false⟩).1 (by simp)

/-- C4 as stated fails: for a selector that is not an attribute of the bound
object, two lines are logged, the no-function-found warning and then the
call-failed warning, not the first one alone. -/
theorem missing_attribute_logs_twice :
    (fun _ => Option.none : String → Option PyAttr) "foo" = Option.none ∧
    (pdpython_eval ⟨0, some ⟨fun _ => Option.none⟩⟩ "foo" []
      ⟨[], [], 1, [], [], false⟩).2.console =
      [⟨"Warning: no Python function found for selector %s.", [PostArg.str "foo"]⟩,
       ⟨"Warning: Python call for selector %s failed.", [PostArg.str "foo"]⟩] ∧
    (pdpython_eval ⟨0, some ⟨fun _ => Option.none⟩⟩ "foo" []
      ⟨[], [], 1, [], [], false⟩).2.console ≠
      [⟨"Warning: no Python function found for selector %s.", [PostArg.str "foo"]⟩] :=
  ⟨rfl, rfl, by simp [pdpython_eval, PyObject_GetAttrString, post, pyEvent, set_py_err,
    t_atom_list_to_PyObject_list, t_atom_list_to_PyObject_items]⟩

/-- C4 (amended): for a bound node and a selector that is not an attribute of
the bound object, `pdpython_eval` looks the attribute up, marshals the
arguments (one warning per atom of unsupported type), logs the
no-function-found warning and then the call-failed warning, and does nothing
else: nothing is called, nothing is sent, the node is unchanged.  The failed
lookup leaves an exception pending. -/
theorem eval_missing_attribute (x : t_pdpython) (obj : PyInstance) (selector : String)
    (argvec : List Atom) (w : World)
    (hobj : x.py_object = some obj) (hattr : obj.getattr selector = Option.none) :
    pdpython_eval x selector argvec w =
      (x, { w with
        console := w.console ++ marshal_warnings argvec ++
          [⟨"Warning: no Python function found for selector %s.", [PostArg.str selector]⟩,
           ⟨"Warning: Python call for selector %s failed.", [PostArg.str selector]⟩],
        pycalls := w.pycalls ++ [PyEvent.getattr selector],
        py_err := true }) := by
  unfold pdpython_eval
  rw [hobj]
  simp only [PyObject_GetAttrString, hattr, t_atom_list_to_PyObject_list, items_snd, post,
    pyEvent, set_py_err, List.append_assoc, List.singleton_append]

theorem eval_missing_attribute_witness :
    pdpython_eval ⟨0, some ⟨fun _ => Option.none⟩⟩ "bang" [Atom.other 3]
        ⟨[], [], 1, [], [], false⟩ =
      (⟨0, some ⟨fun _ => Option.none⟩⟩, { (⟨[], [], 1, [], [], false⟩ : World) with
        console := [] ++ marshal_warnings [Atom.other 3] ++
          [⟨"Warning: no Python function found for selector %s.", [PostArg.str "bang"]⟩,
           ⟨"Warning: Python call for selector %s failed.", [PostArg.str "bang"]⟩],
        pycalls := [] ++ [PyEvent.getattr "bang"],
        py_err := true }) :=
  eval_missing_attribute ⟨0, some ⟨fun _ => Option.none⟩⟩ ⟨fun _ => Option.none⟩ "bang"
    [Atom.other 3] ⟨[], [], 1, [], [], false⟩ rfl rfl

/-- C1 as stated fails in three ways.  A method returning the one-element
tuple `(None,)` makes `pdpython_eval` send no message at all, not one.  A
tuple of `2^31` booleans, whose count `(int) len` is negative, sends no
message.  And after a message the bound object does not understand has left
an exception pending, a method returning the tuple `(1.0,)` sends nothing. -/
theorem tuple_of_none_sends_nothing :
    [PyObject.none].length = 1 ∧
    (pdpython_eval
      ⟨0, some ⟨fun _ => some (PyAttr.callable fun _ => some (PyObject.tuple [PyObject.none]))⟩⟩
      "pair" [] ⟨[], [], 1, [], [], false⟩).2.sent = [] ∧
    (pdpython_eval
      ⟨0, some ⟨fun _ => some (PyAttr.callable fun _ =>
        some (PyObject.tuple (List.replicate 2147483648 (PyObject.bool true))))⟩⟩
      "pair" [] ⟨[], [], 1, [], [], false⟩).2.sent = [] ∧
    (pdpython_eval
      ⟨0, some ⟨fun name => if name = "pair" then some (PyAttr.callable fun _ =>
        some (PyObject.tuple [PyObject.float (F64.fin false 1023 0)])) else Option.none⟩⟩
      "pair" []
      (pdpython_eval
        ⟨0, some ⟨fun name => if name = "pair" then some (PyAttr.callable fun _ =>
          some (PyObject.tuple [PyObject.float (F64.fin false 1023 0)])) else Option.none⟩⟩
        "nosuch" [] ⟨[], [], 1, [], [], false⟩).2).2.sent = [] := by
  refine ⟨rfl, rfl, ?_, ?_⟩
  · rw [eval_tuple _ _ "pair" [] ⟨[], [], 1, [], [], false⟩ _ _ rfl rfl rfl rfl]
    have h : (castInt (List.replicate 2147483648 (PyObject.bool true)).length).toNat = 0 := by
      rw [List.length_replicate]
      decide
    rw [h, List.take_zero]
    rfl
  · have h1 : (pdpython_eval
        ⟨0, some ⟨fun name => if name = "pair" then some (PyAttr.callable fun _ =>
          some (PyObject.tuple [PyObject.float (F64.fin false 1023 0)])) else Option.none⟩⟩
        "nosuch" [] ⟨[], [], 1, [], [], false⟩).2.py_err = true := by
      simp [pdpython_eval, PyObject_GetAttrString, t_atom_list_to_PyObject_list,
        t_atom_list_to_PyObject_items, post, pyEvent, set_py_err]
    rw [eval_pending _ ⟨fun name => if name = "pair" then some (PyAttr.callable fun _ =>
          some (PyObject.tuple [PyObject.float (F64.fin false 1023 0)])) else Option.none⟩
      "pair" _ _ (fun _ => some (PyObject.tuple [PyObject.float (F64.fin false 1023 0)]))
      rfl (by simp) h1]
    simp [pdpython_eval, PyObject_GetAttrString, t_atom_list_to_PyObject_list,
      t_atom_list_to_PyObject_items, post, pyEvent, set_py_err]

/-- C1 (amended): when no Python exception is pending and the method found
for the selector returns a tuple of fewer than `2^31` items, `pdpython_eval`
emits the items one by one in tuple order: the messages sent are, item after
item, those `emit_outlet_message` sends for that item, and nothing but
marshalling warnings is logged.  An item sends exactly one message when it is
a boolean, a float, an integer, a string or a list whose `(int)` length is
positive (so every non-empty list of fewer than `2^31` elements), and no
message otherwise: `None`, a nested tuple, any other object, and a list whose
`(int)` length is not positive (so the empty list).  When every item is of a
kind that sends, a tuple of length N sends exactly N messages, the i-th being
the emission of the i-th item. -/
theorem tuple_result_emits_each_item (x : t_pdpython) (obj : PyInstance)
    (selector : String) (argvec : List Atom) (w : World)
    (call : List PyObject → Option PyObject) (items : List PyObject)
    (hobj : x.py_object = some obj)
    (hattr : obj.getattr selector = some (PyAttr.callable call))
    (hcall : call (t_atom_list_to_PyObject_items argvec w).1 = some (PyObject.tuple items))
    (hlen : items.length < 2147483648)
    (hw : w.py_err = false) :
    pdpython_eval x selector argvec w =
      (x, { w with
        console := w.console ++ marshal_warnings argvec,
        sent := w.sent ++ items.flatMap fun v => messages_of v x.x_outlet,
        pycalls := w.pycalls ++ [PyEvent.getattr selector,
          PyEvent.call (t_atom_list_to_PyObject_items argvec w).1],
        py_err := items.any emit_raises }) ∧
    (∀ v : PyObject,
      ((∃ b, v = PyObject.bool b) ∨ (∃ d, v = PyObject.float d) ∨
        (∃ n, v = PyObject.long n) ∨ (∃ s, v = PyObject.unicode s) ∨
        (∃ l, v = PyObject.list l ∧ 0 < castInt l.length)) →
      ∃ m, messages_of v x.x_outlet = [m]) ∧
    (∀ v : PyObject,
      (v = PyObject.none ∨ (∃ t, v = PyObject.tuple t) ∨ (∃ k, v = PyObject.other k) ∨
        (∃ l, v = PyObject.list l ∧ castInt l.length ≤ 0)) →
      messages_of v x.x_outlet = []) ∧
    (∀ l : List PyObject, l ≠ [] → l.length < 2147483648 → 0 < castInt l.length) ∧
    castInt ([] : List PyObject).length ≤ 0 ∧
    ((∀ v ∈ items, (∃ b, v = PyObject.bool b) ∨ (∃ d, v = PyObject.float d) ∨
        (∃ n, v = PyObject.long n) ∨ (∃ s, v = PyObject.unicode s) ∨
        (∃ l, v = PyObject.list l ∧ 0 < castInt l.length)) →
      List.Forall₂ (fun v m => messages_of v x.x_outlet = [m]) items
        (items.flatMap fun v => messages_of v x.x_outlet)) := by
  refine ⟨?_, fun v hv => messages_of_emitting v _ hv,
    fun v hv => messages_of_silent v _ hv, ?_, by decide, ?_⟩
  · rw [eval_tuple x obj selector argvec w call items hobj hattr hcall hw]
    simp only [castInt_of_lt _ hlen, Int.toNat_ofNat, List.take_length, emit_each_sent, hw,
      Bool.false_or]
  · intro l hne hl
    rw [castInt_of_lt _ hl]
    have : l.length ≠ 0 := fun h => hne (List.length_eq_zero.mp h)
    omega
  · intro hall
    clear hcall hlen
    induction items with
    | nil => exact List.Forall₂.nil
    | cons v rest ih =>
      obtain ⟨m, hm⟩ := messages_of_emitting v x.x_outlet (hall v (List.mem_cons_self _ _))
      rw [List.flatMap_cons, hm]
      exact List.Forall₂.cons hm (ih fun q hq => hall q (List.mem_cons_of_mem _ hq))

theorem tuple_result_emits_each_item_witness :
    (pdpython_eval
      ⟨0, some ⟨fun _ => some (PyAttr.callable fun _ =>
        some (PyObject.tuple [PyObject.float (F64.fin false 1023 0), PyObject.unicode "done"]))⟩⟩
      "pair" [] ⟨[], [], 1, [], [], false⟩).2.sent =
      [(0, OutletMsg.float F32.one), (0, OutletMsg.symbol "done")] := by
  rw [(tuple_result_emits_each_item
    ⟨0, some ⟨fun _ => some (PyAttr.callable fun _ =>
      some (PyObject.tuple [PyObject.float (F64.fin false 1023 0), PyObject.unicode "done"]))⟩⟩
    ⟨fun _ => some (PyAttr.callable fun _ =>
      some (PyObject.tuple [PyObject.float (F64.fin false 1023 0), PyObject.unicode "done"]))⟩
    "pair" [] ⟨[], [], 1, [], [], false⟩
    (fun _ => some (PyObject.tuple [PyObject.float (F64.fin false 1023 0),
      PyObject.unicode "done"]))
    [PyObject.float (F64.fin false 1023 0), PyObject.unicode "done"] rfl rfl rfl
    (by decide) rfl).1]
  decide

/-- C6: constructing one or more nodes, each with at least two creation
arguments, from canvas directory `d`, starting from a search path that does
not contain `d`, leaves the search path equal to the old path followed by `d`:
`d` occurs exactly once and the prior entries are unchanged and in order.
The constructions run to completion whenever the first two creation arguments
of every node are symbols (the module and function names).  The search-path
step on its own, run any number of times `k ≥ 1`, has the same effect as
running it once. -/
theorem search_path_registered_once (env : PyEnv) (d : String)
    (reqs : List (String × List Atom)) (w : World)
    (hk : reqs ≠ []) (hlen : ∀ r ∈ reqs, 2 ≤ r.2.length) (hd : d ∉ w.sys_path) :
    (∀ w', pdpython_new_each env d reqs w = some w' →
      w'.sys_path = w.sys_path ++ [d] ∧ w'.sys_path.count d = 1) ∧
    ((∀ r ∈ reqs, ∃ m f rest, r.2 = Atom.symbol m :: Atom.symbol f :: rest) →
      (pdpython_new_each env d reqs w).isSome = true) ∧
    (∀ k, 1 ≤ k → (Nat.iterate (add_canvas_path d) k w).sys_path = w.sys_path ++ [d]) := by
  refine ⟨?_, pdpython_new_each_defined env d reqs w, ?_⟩
  rotate_left
  · intro k hk1
    obtain ⟨j, rfl⟩ : ∃ j, k = j + 1 := ⟨k - 1, by omega⟩
    have h1 : (add_canvas_path d w).sys_path = w.sys_path ++ [d] := by
      rw [add_canvas_path_sys_path, if_neg hd]
    rw [Function.iterate_succ_apply,
      add_canvas_path_again d j (add_canvas_path d w) (by rw [h1]; simp), h1]
  intro w' h
  cases reqs with
  | nil => exact absurd rfl hk
  | cons req rest =>
    simp only [pdpython_new_each] at h
    split at h
    · simp at h
    · rename_i r hr
      have h1 := pdpython_new_sys_path env d req.1 req.2 w r
        (hlen req (List.mem_cons_self _ _)) hr
      rw [add_canvas_path_sys_path, if_neg hd] at h1
      have hmem : d ∈ r.2.sys_path := by rw [h1]; simp
      have h2 := pdpython_new_each_registered env d rest r.2 w'
        (fun q hq => hlen q (List.mem_cons_of_mem _ hq)) hmem h
      have hpath : w'.sys_path = w.sys_path ++ [d] := by rw [h2, h1]
      refine ⟨hpath, ?_⟩
      rw [hpath, List.count_append, List.count_eq_zero.mpr hd]
      simp

theorem search_path_registered_once_witness :
    "/home/pd" ∉ (⟨[], [], 0, ["/usr/lib/python3"], [], false⟩ : World).sys_path ∧
    (∀ w', pdpython_new_each
        ⟨fun _ name => if name = "synth" then
          some ⟨fun _ => some (PyModuleAttr.callable fun _ => some ⟨fun _ => Option.none⟩)⟩
          else Option.none⟩
        "/home/pd"
        [("python", [Atom.symbol "synth", Atom.symbol "Voice"]),
         ("python", [Atom.symbol "nosuch", Atom.symbol "Voice", Atom.float F32.one])]
        ⟨[], [], 0, ["/usr/lib/python3"], [], false⟩ = some w' →
      w'.sys_path = ["/usr/lib/python3"] ++ ["/home/pd"] ∧
        w'.sys_path.count "/home/pd" = 1) ∧
    (pdpython_new_each
        ⟨fun _ name => if name = "synth" then
          some ⟨fun _ => some (PyModuleAttr.callable fun _ => some ⟨fun _ => Option.none⟩)⟩
          else Option.none⟩
        "/home/pd"
        [("python", [Atom.symbol "synth", Atom.symbol "Voice"]),
         ("python", [Atom.symbol "nosuch", Atom.symbol "Voice", Atom.float F32.one])]
        ⟨[], [], 0, ["/usr/lib/python3"], [], false⟩).isSome = true :=
  ⟨by decide,
   (search_path_registered_once _ "/home/pd"
      [("python", [Atom.symbol "synth", Atom.symbol "Voice"]),
       ("python", [Atom.symbol "nosuch", Atom.symbol "Voice", Atom.float F32.one])]
      ⟨[], [], 0, ["/usr/lib/python3"], [], false⟩ (by simp) (by simp) (by decide)).1,
   (search_path_registered_once _ "/home/pd"
      [("python", [Atom.symbol "synth", Atom.symbol "Voice"]),
       ("python", [Atom.symbol "nosuch", Atom.symbol "Voice", Atom.float F32.one])]
      ⟨[], [], 0, ["/usr/lib/python3"], [], false⟩ (by simp) (by simp) (by decide)).2.1
      (by simp)⟩

end PdPython
